import Mathlib

/-!
# Verification of the caliguland authentication gateway (src/caliguland-auth/app.py)

Shallow embedding of the session-token lifecycle of `app.py`:

* configuration (`USERNAME`, `JWT_EXPIRY_HOURS`, `JWT_PURPOSE`) as a `Config` record;
* the cached signing-secret provider `get_jwt_secret` as explicit state passing over
  the process-global cache `_jwt_secret : Option String` (Python truthiness: `None`
  and the empty string are both falsy);
* JWTs as an inductive `Token`: either a syntactically malformed string or a
  well-formed HS256-style token carrying its claim set, header algorithm and the
  secret that produced its signature (a signature verifies against `secret` exactly
  when the token was signed with `secret`);
* `jwt.encode` / `jwt.decode` (pyjwt, `algorithms=["HS256"]`) by their documented
  semantics: decoding verifies the header algorithm and the signature, then checks
  the registered `exp` claim ONLY when that claim is present (pyjwt's default
  `verify_exp` applies to a present claim; an absent `exp` claim is not required);
  all claim values are modelled well-typed (`exp`/`iat` integral seconds);
* the HTTP handlers `login` (`POST /login`), `validate` (`GET /auth/validate`) and
  `logout` (`GET /logout`) as total functions into explicit result types, with a
  distinguished `uncaught` outcome for an exception that escapes the handler
  unhandled (neither a deliberate `HTTPException` nor a caught JWT error).

`bcrypt.checkpw` is an external oracle: `login` receives it as a function
`String → Except String Bool` (`.error` = the comparison raised). Timestamps are
integer Unix seconds; `datetime.utcnow()` is read twice inside `login` (once for
`expiry`, once for `iat`), so `login` takes both readings `t1 ≤ t2` explicitly.
-/

deriving instance DecidableEq for Except

namespace Caliguland

/-- Configuration from environment: `USERNAME` (default "admin"),
`JWT_EXPIRY_HOURS` (default 24), `JWT_PURPOSE` (default "caliguland-session"). -/
structure Config where
  username : String
  jwtExpiryHours : Int
  jwtPurpose : String
deriving Repr, DecidableEq

/-- The default configuration values from `os.getenv` in `app.py`. -/
def defaultConfig : Config :=
  { username := "admin", jwtExpiryHours := 24, jwtPurpose := "caliguland-session" }

/-- A JWT claim set as used by `app.py`: the registered claims `sub`, `exp`, `iat`
and the custom `purpose` claim, each possibly absent. -/
structure Claims where
  sub : Option String
  exp : Option Int
  iat : Option Int
  purpose : Option String
deriving Repr, DecidableEq

/-- A token string presented to the validator: either not a well-formed JWT at all
(`malformed`, carrying the raw string and the `InvalidTokenError` message pyjwt
reports for it), or a well-formed token whose header names `alg` and whose
signature was produced with `secret`. The compact JWS serialization of a signed
token is never the empty string, so the empty cookie value only arises as
`malformed "" _`. -/
inductive Token where
  | malformed (raw : String) (msg : String)
  | signed (payload : Claims) (alg : String) (secret : String)
deriving Repr, DecidableEq

/-- Outcome of pyjwt's `jwt.decode(token, key, algorithms=["HS256"])`. -/
inductive DecodeResult where
  | ok (payload : Claims)
  | expiredSignature
  | invalidToken (msg : String)
deriving Repr, DecidableEq

/-- pyjwt `jwt.decode` with `algorithms=["HS256"]` and default options: reject a
malformed token (`InvalidTokenError`); reject a header algorithm outside the
allow-list (`InvalidAlgorithmError ⊆ InvalidTokenError`); verify the signature
against `key` (`InvalidSignatureError ⊆ InvalidTokenError`); then validate the
`exp` claim when it is present (`ExpiredSignatureError` when `exp ≤ now`; an
absent `exp` claim is not validated since default `require` is empty). -/
def jwtDecode (tok : Token) (key : String) (now : Int) : DecodeResult :=
  match tok with
  | .malformed _ msg => .invalidToken msg
  | .signed payload alg secret =>
    if alg ≠ "HS256" then .invalidToken "The specified alg value is not allowed"
    else if secret ≠ key then .invalidToken "Signature verification failed"
    else
      match payload.exp with
      | some e => if e ≤ now then .expiredSignature else .ok payload
      | none => .ok payload

/-- Python truthiness of the `vibevm_session` cookie parameter in
`if not vibevm_session:`: falsy when the cookie is absent or the empty string. -/
def cookieFalsy : Option Token → Bool
  | none => true
  | some (.malformed "" _) => true
  | some _ => false

/-- Result of one `GET /auth/validate` request: a 200 success carrying the
identity, an `HTTPException(status, detail)` (FastAPI serializes `detail` into the
response body), or an exception escaping the handler unhandled. -/
inductive VResult where
  | valid (user : String)
  | httpErr (status : Nat) (detail : String)
  | uncaught (msg : String)
deriving Repr, DecidableEq

/-- The `validate` handler (`app.py` lines 263–286). `secretR` is the outcome of
the `get_jwt_secret()` call made inside the handler (`.error` = it raised
`HTTPException(500, "Failed to derive JWT key")`, which the `except jwt.*` clauses
do not catch). `payload["sub"]` on a payload with no `sub` claim raises `KeyError`,
which none of the handler's `except` clauses catch. -/
def validate (cfg : Config) (secretR : Except Unit String) (now : Int)
    (cookie : Option Token) : VResult :=
  if cookieFalsy cookie then .httpErr 401 "No session cookie"
  else
    match cookie with
    | none => .httpErr 401 "No session cookie"
    | some tok =>
      match secretR with
      | .error _ => .httpErr 500 "Failed to derive JWT key"
      | .ok key =>
        match jwtDecode tok key now with
        | .expiredSignature => .httpErr 401 "Session expired"
        | .invalidToken m => .httpErr 401 ("Invalid token: " ++ m)
        | .ok payload =>
          if payload.purpose ≠ some cfg.jwtPurpose then
            .httpErr 401 "Invalid token purpose"
          else
            match payload.sub with
            | some u => .valid u
            | none => .uncaught "KeyError: sub"

/-- The `Set-Cookie` directive emitted by a successful login. -/
structure SetCookie where
  key : String
  value : Token
  httponly : Bool
  sameSiteLax : Bool
  maxAge : Int
deriving Repr, DecidableEq

/-- Result of one `POST /login` request. -/
inductive LoginResult where
  | redirect (status : Nat) (location : String) (cookie : SetCookie)
  | httpErr (status : Nat) (detail : String)
deriving Repr, DecidableEq

/-- The claim set `login` encodes: `sub` = the submitted username, `exp` = the
first `utcnow()` reading plus `JWT_EXPIRY_HOURS` hours, `iat` = the second
`utcnow()` reading, `purpose` = the configured purpose tag. -/
def issuedClaims (cfg : Config) (t1 t2 : Int) (username : String) : Claims :=
  { sub := some username
    exp := some (t1 + cfg.jwtExpiryHours * 3600)
    iat := some t2
    purpose := some cfg.jwtPurpose }

/-- The `login` handler (`app.py` lines 215–261). `checkpw` is the
`bcrypt.checkpw(password.encode(), PASSWORD_HASH_BYTES)` oracle; an
`HTTPException` raised inside the `try` (the mismatch branch) is itself caught by
`except Exception` and re-raised as the same generic 401, so both the mismatch and
the raising cases collapse to `401 "Invalid credentials"`. `secretR` is the
outcome of the `get_jwt_secret()` call made while encoding (outside the `try`);
`t1` and `t2` are the two `datetime.utcnow()` readings. -/
def login (cfg : Config) (checkpw : String → Except String Bool)
    (secretR : Except Unit String) (t1 t2 : Int)
    (username password : String) : LoginResult :=
  if username ≠ cfg.username then .httpErr 401 "Invalid credentials"
  else
    match checkpw password with
    | .ok true =>
      match secretR with
      | .error _ => .httpErr 500 "Failed to derive JWT key"
      | .ok secret =>
        .redirect 302 "/code-server"
          { key := "vibevm_session"
            value := .signed (issuedClaims cfg t1 t2 username) "HS256" secret
            httponly := true
            sameSiteLax := true
            maxAge := cfg.jwtExpiryHours * 3600 }
    | .ok false => .httpErr 401 "Invalid credentials"
    | .error _ => .httpErr 401 "Invalid credentials"

/-- Observable outcome of one `get_jwt_secret()` call: the returned value (or the
raised `HTTPException(500)`), the cache cell `_jwt_secret` after the call, and
whether the external Dstack dependency was invoked during the call. -/
structure GetSecretOut where
  result : Except Unit String
  cache : Option String
  invokedDep : Bool
deriving Repr, DecidableEq

/-- Python truthiness of the module-global `_jwt_secret` in `if _jwt_secret:`:
falsy when unset (`None`) or the empty string. -/
def secretTruthy : Option String → Bool
  | none => false
  | some s => decide (s ≠ "")

/-- `get_jwt_secret` (`app.py` lines 70–86) as explicit state passing over the
cache `_jwt_secret`. `derive` is the external `DstackClient().get_key(...)` call
(`.error` = it raised; the cache is then left unchanged and the handler raises
`HTTPException(500)`). The guard is `if _jwt_secret:`, i.e. Python truthiness. -/
def get_jwt_secret (derive : Except Unit String) (cache : Option String) :
    GetSecretOut :=
  if secretTruthy cache then
    { result := .ok (cache.getD ""), cache := cache, invokedDep := false }
  else
    match derive with
    | .ok k => { result := .ok k, cache := some k, invokedDep := true }
    | .error _ => { result := .error (), cache := cache, invokedDep := true }

/-- Response of `GET /logout`. -/
structure LogoutResponse where
  status : Nat
  location : String
  deletedCookie : Option String
deriving Repr, DecidableEq

/-- The `logout` handler (`app.py` lines 293–298): a `302` redirect to `/login`
with a `delete_cookie` directive for `vibevm_session`. The only server-side
mutable state of the process is the secret cache, which logout does not read or
write: it is returned unchanged. -/
def logout (cache : Option String) : LogoutResponse × Option String :=
  ({ status := 302, location := "/login", deletedCookie := some "vibevm_session" },
   cache)

/-- `validate` with the secret obtained from the stateful `get_jwt_secret` (the
handler only reaches the secret lookup when a cookie value is present). Returns
the HTTP outcome and the cache after the request. -/
def validateSt (cfg : Config) (derive : Except Unit String) (cache : Option String)
    (now : Int) (cookie : Option Token) : VResult × Option String :=
  if cookieFalsy cookie then (.httpErr 401 "No session cookie", cache)
  else
    let o := get_jwt_secret derive cache
    (validate cfg o.result now cookie, o.cache)

/-- `true` iff the `exp` claim, when present, is strictly in the future at `now`
(the condition under which pyjwt's expiry validation passes). -/
def expFresh : Option Int → Int → Bool
  | none, _ => true
  | some e, now => decide (now < e)

/-- Decoding a token signed with the expected key and algorithm succeeds whenever
its `exp` claim, if present, is in the future. -/
theorem jwtDecode_signed_ok (c : Claims) (key : String) (now : Int)
    (he : expFresh c.exp now = true) :
    jwtDecode (.signed c "HS256" key) key now = .ok c := by
  cases hce : c.exp with
  | none => simp [jwtDecode, hce]
  | some e =>
    rw [hce] at he
    simp only [expFresh, decide_eq_true_eq] at he
    simp [jwtDecode, hce, not_le.mpr he]

/-- C1: for the configured username with the correct password, `POST /login`
issues a token in the `vibevm_session` cookie, and `GET /auth/validate` on that
token before its expiry, under the same signing secret, returns the original
subject: the authenticated identity equals the login username. -/
theorem C1_login_validate_roundtrip (cfg : Config)
    (checkpw : String → Except String Bool) (secret : String)
    (t1 t2 nowV : Int) (password : String)
    (hpw : checkpw password = .ok true)
    (hfresh : nowV < t1 + cfg.jwtExpiryHours * 3600) :
    ∃ sc : SetCookie,
      login cfg checkpw (.ok secret) t1 t2 cfg.username password =
        .redirect 302 "/code-server" sc ∧
      validate cfg (.ok secret) nowV (some sc.value) = .valid cfg.username := by
  refine ⟨{ key := "vibevm_session",
            value := .signed (issuedClaims cfg t1 t2 cfg.username) "HS256" secret,
            httponly := true, sameSiteLax := true,
            maxAge := cfg.jwtExpiryHours * 3600 }, ?_, ?_⟩
  · simp [login, hpw]
  · have hdec := jwtDecode_signed_ok (issuedClaims cfg t1 t2 cfg.username) secret nowV
      (by simp [issuedClaims, expFresh, hfresh])
    simp only [validate, cookieFalsy, hdec]
    simp [issuedClaims]

/-- Witness for C1 at the default configuration. -/
theorem C1_witness :
    ∃ sc : SetCookie,
      login defaultConfig (fun _ => .ok true) (.ok "k") 0 0 "admin" "pw" =
        .redirect 302 "/code-server" sc ∧
      validate defaultConfig (.ok "k") 100 (some sc.value) = .valid "admin" :=
  C1_login_validate_roundtrip defaultConfig (fun _ => .ok true) "k" 0 0 100 "pw"
    rfl (by decide)

/-- C4: credential validation fails closed. Whenever the submitted username
differs from the configured one, or the bcrypt comparison does not return `true`
(a mismatch or any raised exception), `login` answers the generic
`401 Invalid credentials`; no exception escapes the handler. -/
theorem C4_login_fails_closed (cfg : Config)
    (checkpw : String → Except String Bool) (secretR : Except Unit String)
    (t1 t2 : Int) (username password : String)
    (h : username ≠ cfg.username ∨ checkpw password ≠ .ok true) :
    login cfg checkpw secretR t1 t2 username password =
      .httpErr 401 "Invalid credentials" := by
  unfold login
  by_cases hu : username = cfg.username
  · have hcp : checkpw password ≠ .ok true := by
      rcases h with h | h
      · exact absurd hu h
      · exact h
    rw [if_neg (not_not_intro hu)]
    cases hc : checkpw password with
    | ok b =>
      cases b
      · rfl
      · exact absurd hc hcp
    | error e => rfl
  · rw [if_pos hu]

/-- Witness for C4: a bcrypt comparison that raises still yields the generic
401. -/
theorem C4_witness :
    login defaultConfig (fun _ => .error "ValueError: invalid salt") (.ok "k")
      0 0 "admin" "x" = .httpErr 401 "Invalid credentials" :=
  C4_login_fails_closed defaultConfig (fun _ => .error "ValueError: invalid salt")
    (.ok "k") 0 0 "admin" "x" (Or.inr (by simp))

/-- C10: a token correctly signed with the current secret, unexpired, but
carrying no `purpose` claim at all is rejected: `payload.get("purpose")` yields
`None`, which differs from the configured purpose string, so the validator
answers `401 Invalid token purpose`. -/
theorem C10_missing_purpose_rejected (cfg : Config) (secret : String) (now : Int)
    (c : Claims) (hp : c.purpose = none) (he : expFresh c.exp now = true) :
    validate cfg (.ok secret) now (some (.signed c "HS256" secret)) =
      .httpErr 401 "Invalid token purpose" := by
  have hdec := jwtDecode_signed_ok c secret now he
  simp [validate, cookieFalsy, hdec, hp]

/-- Witness for C10: a signed, unexpired, purpose-less token is rejected. -/
theorem C10_witness :
    validate defaultConfig (.ok "k") 5
      (some (.signed { sub := some "admin", exp := some 1000, iat := some 0,
                       purpose := none } "HS256" "k")) =
      .httpErr 401 "Invalid token purpose" :=
  C10_missing_purpose_rejected defaultConfig "k" 5
    { sub := some "admin", exp := some 1000, iat := some 0, purpose := none }
    rfl (by decide)

/-- C7: token issuance postconditions. For every successful login, when the two
`utcnow()` readings coincide (`t1 = t2`, i.e. no clock tick between the `expiry`
computation and the `iat` field), the issued token is signed with the provider's
current secret under HS256 and its claims satisfy `iat = now`,
`exp = now + JWT_EXPIRY_HOURS` hours, and `purpose` = the configured tag. -/
theorem C7_issuance_postconditions (cfg : Config)
    (checkpw : String → Except String Bool) (secret : String)
    (t1 t2 : Int) (password : String)
    (hpw : checkpw password = .ok true) (hclock : t1 = t2) :
    ∃ sc : SetCookie,
      login cfg checkpw (.ok secret) t1 t2 cfg.username password =
        .redirect 302 "/code-server" sc ∧
      sc.value = .signed
        { sub := some cfg.username
          exp := some (t2 + cfg.jwtExpiryHours * 3600)
          iat := some t2
          purpose := some cfg.jwtPurpose } "HS256" secret := by
  subst hclock
  refine ⟨{ key := "vibevm_session",
            value := .signed
              { sub := some cfg.username
                exp := some (t1 + cfg.jwtExpiryHours * 3600)
                iat := some t1
                purpose := some cfg.jwtPurpose } "HS256" secret,
            httponly := true, sameSiteLax := true,
            maxAge := cfg.jwtExpiryHours * 3600 }, ?_, rfl⟩
  simp [login, hpw, issuedClaims]

/-- Witness for C7 at the default configuration. -/
theorem C7_witness :
    ∃ sc : SetCookie,
      login defaultConfig (fun _ => .ok true) (.ok "k") 7 7 "admin" "pw" =
        .redirect 302 "/code-server" sc ∧
      sc.value = .signed
        { sub := some "admin", exp := some (7 + 24 * 3600), iat := some 7,
          purpose := some "caliguland-session" } "HS256" "k" :=
  C7_issuance_postconditions defaultConfig (fun _ => .ok true) "k" 7 7 "pw"
    rfl rfl

/-- C2 (amended): the validator accepts a token (returns an identity) only if the
token is well formed, its header algorithm is HS256, its signature verifies under
the current secret, its `purpose` claim equals the configured purpose, its `sub`
claim is present (and is the returned identity), and its `exp` claim — WHEN
PRESENT — is strictly in the future. A token with no `exp` claim at all is not
rejected (pyjwt's default expiry validation applies only to a present claim), so
the original claim's "a token missing any one of these is rejected" fails for a
missing `exp`. -/
theorem C2_validity_invariant (cfg : Config) (secret : String) (now : Int)
    (cookie : Option Token) (u : String)
    (h : validate cfg (.ok secret) now cookie = .valid u) :
    ∃ c : Claims, cookie = some (.signed c "HS256" secret) ∧
      expFresh c.exp now = true ∧
      c.purpose = some cfg.jwtPurpose ∧
      c.sub = some u := by
  cases cookie with
  | none => simp [validate, cookieFalsy] at h
  | some tok =>
    cases tok with
    | malformed raw msg =>
      by_cases hraw : raw = ""
      · subst hraw; simp [validate, cookieFalsy] at h
      · simp [validate, cookieFalsy, hraw, jwtDecode] at h
    | signed c alg key =>
      by_cases halg : alg = "HS256"
      · subst halg
        by_cases hkey : key = secret
        · subst hkey
          by_cases hfr : expFresh c.exp now = true
          · have hdec : jwtDecode (.signed c "HS256" key) key now = .ok c :=
              jwtDecode_signed_ok c key now hfr
            simp only [validate, cookieFalsy, hdec] at h
            by_cases hp : c.purpose = some cfg.jwtPurpose
            · cases hs : c.sub with
              | none => simp [hp, hs] at h
              | some u' =>
                simp [hp, hs] at h
                exact ⟨c, rfl, hfr, hp, by rw [hs, h]⟩
            · simp [hp] at h
          · have hdec : jwtDecode (.signed c "HS256" key) key now =
                .expiredSignature := by
              cases hce : c.exp with
              | none => rw [hce] at hfr; exact absurd rfl hfr
              | some e =>
                rw [hce] at hfr
                simp only [expFresh, decide_eq_true_eq, not_lt] at hfr
                simp [jwtDecode, hce, hfr]
            simp [validate, cookieFalsy, hdec] at h
        · simp [validate, cookieFalsy, jwtDecode, hkey] at h
      · simp [validate, cookieFalsy, jwtDecode, halg] at h

/-- Witness for C2 at a concrete valid token. -/
theorem C2_witness :
    ∃ c : Claims,
      (some (.signed { sub := some "admin", exp := some 1000, iat := some 0,
                       purpose := some "caliguland-session" } "HS256" "k")
        : Option Token) = some (.signed c "HS256" "k") ∧
      expFresh c.exp 5 = true ∧
      c.purpose = some defaultConfig.jwtPurpose ∧
      c.sub = some "admin" :=
  C2_validity_invariant defaultConfig "k" 5
    (some (.signed { sub := some "admin", exp := some 1000, iat := some 0,
                     purpose := some "caliguland-session" } "HS256" "k"))
    "admin" (by decide)

/-- C2 counterexample: a token signed with the current secret, with the correct
purpose and a present subject but NO `exp` claim at all, is ACCEPTED at an
arbitrarily late validation time — refuting "a token missing or failing any one
of these [conditions, including expiry] is rejected". -/
theorem C2_counterexample :
    validate defaultConfig (.ok "k") 999999999
      (some (.signed { sub := some "admin", exp := none, iat := some 0,
                       purpose := some "caliguland-session" } "HS256" "k")) =
      .valid "admin" := by decide

/-- C8 (amended): after a first successful `get_jwt_secret` call that derived a
NON-EMPTY secret, every subsequent call returns the same cached value without
invoking the external dependency, so the secret never changes within the process
instance. (The non-emptiness proviso is forced by `if _jwt_secret:` truthiness —
see the counterexample.) -/
theorem C8_secret_cached_after_first_success (s : String) (hs : s ≠ "")
    (derive2 : Except Unit String) :
    get_jwt_secret (.ok s) none =
      { result := .ok s, cache := some s, invokedDep := true } ∧
    get_jwt_secret derive2 (get_jwt_secret (.ok s) none).cache =
      { result := .ok s, cache := some s, invokedDep := false } := by
  have h1 : get_jwt_secret (.ok s) none =
      { result := .ok s, cache := some s, invokedDep := true } := by
    simp [get_jwt_secret, secretTruthy]
  refine ⟨h1, ?_⟩
  rw [h1]
  simp [get_jwt_secret, secretTruthy, hs]

/-- Witness for C8 with a concrete non-empty secret. -/
theorem C8_witness :
    get_jwt_secret (.ok "k") none =
      { result := .ok "k", cache := some "k", invokedDep := true } ∧
    get_jwt_secret (.error ()) (get_jwt_secret (.ok "k") none).cache =
      { result := .ok "k", cache := some "k", invokedDep := false } :=
  C8_secret_cached_after_first_success "k" (by decide) (.error ())

/-- C8 counterexample: if the dependency derives the EMPTY string, the first call
succeeds (returns `""` and stores it), but the cached value is falsy under
`if _jwt_secret:`, so the very next call re-invokes the external dependency and
can return a DIFFERENT secret — refuting both "subsequent calls return the same
cached value without re-invoking" and "once derived, never changes". -/
theorem C8_counterexample :
    (get_jwt_secret (.ok "") none).result = .ok "" ∧
    (get_jwt_secret (.ok "other") (get_jwt_secret (.ok "") none).cache).invokedDep
      = true ∧
    (get_jwt_secret (.ok "other") (get_jwt_secret (.ok "") none).cache).result
      = .ok "other" := ⟨rfl, rfl, rfl⟩

/-- C3 (amended): single-pass outcome classification of `GET /auth/validate`. An
absent or empty cookie is rejected with the NoToken classification
(`No session cookie`); a malformed token, a disallowed header algorithm, or a
signature that does not verify under the current secret is rejected with the
BadSignature classification (`Invalid token: ...`); a correctly signed token
whose `exp` claim is present with `exp ≤ now` is rejected with the Expired
classification (`Session expired`); a correctly signed, unexpired token whose
`purpose` differs from the configured purpose is rejected with the WrongPurpose
classification (`Invalid token purpose`); otherwise — WHEN the `sub` claim is
present — validation succeeds and returns it. (The original unconditional
"otherwise validation succeeds" is false: with no `sub` claim the handler raises
an uncaught `KeyError`; see the counterexample.) -/
theorem C3_validator_classification (cfg : Config) (secret : String) (now : Int) :
    (validate cfg (.ok secret) now none = .httpErr 401 "No session cookie") ∧
    (∀ msg, validate cfg (.ok secret) now (some (.malformed "" msg)) =
      .httpErr 401 "No session cookie") ∧
    (∀ raw msg, raw ≠ "" →
      validate cfg (.ok secret) now (some (.malformed raw msg)) =
        .httpErr 401 ("Invalid token: " ++ msg)) ∧
    (∀ c alg key, alg ≠ "HS256" →
      validate cfg (.ok secret) now (some (.signed c alg key)) =
        .httpErr 401 "Invalid token: The specified alg value is not allowed") ∧
    (∀ c key, key ≠ secret →
      validate cfg (.ok secret) now (some (.signed c "HS256" key)) =
        .httpErr 401 "Invalid token: Signature verification failed") ∧
    (∀ c e, c.exp = some e → e ≤ now →
      validate cfg (.ok secret) now (some (.signed c "HS256" secret)) =
        .httpErr 401 "Session expired") ∧
    (∀ c, expFresh c.exp now = true → c.purpose ≠ some cfg.jwtPurpose →
      validate cfg (.ok secret) now (some (.signed c "HS256" secret)) =
        .httpErr 401 "Invalid token purpose") ∧
    (∀ c u, expFresh c.exp now = true → c.purpose = some cfg.jwtPurpose →
      c.sub = some u →
      validate cfg (.ok secret) now (some (.signed c "HS256" secret)) =
        .valid u) := by
  refine ⟨rfl, fun msg => rfl, ?_, ?_, ?_, ?_, ?_, ?_⟩
  · intro raw msg hraw
    simp [validate, cookieFalsy, hraw, jwtDecode]
  · intro c alg key halg
    simp [validate, cookieFalsy, jwtDecode, halg]
  · intro c key hkey
    simp [validate, cookieFalsy, jwtDecode, hkey]
  · intro c e hce hle
    have hdec : jwtDecode (.signed c "HS256" secret) secret now =
        .expiredSignature := by
      simp [jwtDecode, hce, hle]
    simp [validate, cookieFalsy, hdec]
  · intro c hfr hp
    have hdec := jwtDecode_signed_ok c secret now hfr
    simp [validate, cookieFalsy, hdec, hp]
  · intro c u hfr hp hs
    have hdec := jwtDecode_signed_ok c secret now hfr
    simp [validate, cookieFalsy, hdec, hp, hs]

/-- Witness for C3: the success branch at a concrete signed, unexpired,
purpose-correct token with a present subject. -/
theorem C3_witness :
    validate defaultConfig (.ok "k3") 5
      (some (.signed { sub := some "admin", exp := some 1000, iat := some 0,
                       purpose := some "caliguland-session" } "HS256" "k3")) =
      .valid "admin" :=
  (C3_validator_classification defaultConfig "k3" 5).2.2.2.2.2.2.2
    { sub := some "admin", exp := some 1000, iat := some 0,
      purpose := some "caliguland-session" } "admin" (by decide) rfl rfl

/-- C3 counterexample: a correctly signed, unexpired token with the configured
purpose but NO `sub` claim does not make validation "succeed and return the
subject claim"; the handler's `payload["sub"]` raises an uncaught `KeyError`
instead — the claim's final "otherwise" case is false on the code. -/
theorem C3_counterexample :
    validate defaultConfig (.ok "k3") 5
      (some (.signed { sub := none, exp := some 1000, iat := some 0,
                       purpose := some "caliguland-session" } "HS256" "k3")) =
      .uncaught "KeyError: sub" := by decide

/-- C5 (code bug): validation is NOT total in the claimed sense. A token that is
correctly signed with the current secret, unexpired, and purpose-correct but
missing the `sub` claim makes `payload["sub"]` raise a `KeyError`, which neither
`except jwt.ExpiredSignatureError` nor `except jwt.InvalidTokenError` catches: an
unhandled exception escapes the `validate` operation instead of the uniform
rejection the spec requires. -/
theorem C5_validate_uncaught_keyerror :
    validate defaultConfig (.ok "s5") 10
      (some (.signed { sub := none, exp := some 2000, iat := some 1,
                       purpose := some "caliguland-session" } "HS256" "s5")) =
      .uncaught "KeyError: sub" := by decide

/-- C6 (amended): whenever the signing secret is available, every rejection the
validator produces carries HTTP status 401 — the STATUS CODE is uniform across
the four AuthError kinds. But each kind carries a distinct `detail` string which
FastAPI serializes into the response body, so the distinction between error kinds
IS visible to the caller (and `validate` performs no internal logging at all);
the original "never leaked to the caller in the response" is false — see the
counterexample. -/
theorem C6_uniform_401_status (cfg : Config) (secret : String) (now : Int)
    (cookie : Option Token) (status : Nat) (detail : String)
    (h : validate cfg (.ok secret) now cookie = .httpErr status detail) :
    status = 401 := by
  simp only [validate] at h
  repeat' split at h
  all_goals first
    | (injection h with h1 h2; exact h1.symm)
    | exact VResult.noConfusion h

/-- Witness for C6 at the NoToken rejection. -/
theorem C6_witness :
    validate defaultConfig (.ok "kw") 0 none =
      .httpErr 401 "No session cookie" ∧ (401 : Nat) = 401 :=
  ⟨rfl, C6_uniform_401_status defaultConfig "kw" 0 none 401 "No session cookie"
    rfl⟩

/-- C6 counterexample: two AuthError kinds (NoToken and Expired) yield 401
responses whose bodies differ (`No session cookie` vs `Session expired`), so the
error-kind distinction is recoverable by the caller from the response itself. -/
theorem C6_counterexample :
    validate defaultConfig (.ok "k6") 0 none =
      .httpErr 401 "No session cookie" ∧
    validate defaultConfig (.ok "k6") 100
      (some (.signed { sub := some "admin", exp := some 50, iat := some 0,
                       purpose := some "caliguland-session" } "HS256" "k6")) =
      .httpErr 401 "Session expired" ∧
    "No session cookie" ≠ "Session expired" :=
  ⟨rfl, by decide, by decide⟩

/-- C9: logout is stateless. For every cache state, `GET /logout` answers a 302
redirect to `/login` with a deletion directive for the `vibevm_session` cookie,
leaves the server state (the only server-side mutable state, the secret cache)
unchanged, and any still-valid token re-submitted to validation after the logout
is still accepted with the same identity. -/
theorem C9_logout_stateless (cfg : Config) (derive : Except Unit String)
    (cache : Option String) (now : Int) (tok : Token) (u : String)
    (h : (validateSt cfg derive cache now (some tok)).1 = .valid u) :
    (logout cache).1 =
      { status := 302, location := "/login",
        deletedCookie := some "vibevm_session" } ∧
    (logout cache).2 = cache ∧
    (validateSt cfg derive (logout cache).2 now (some tok)).1 = .valid u :=
  ⟨rfl, rfl, h⟩

/-- Witness for C9: a concrete valid token still validates after a logout. -/
theorem C9_witness :
    (logout none).1 =
      { status := 302, location := "/login",
        deletedCookie := some "vibevm_session" } ∧
    (logout none).2 = none ∧
    (validateSt defaultConfig (.ok "k9") (logout none).2 20
      (some (.signed { sub := some "admin", exp := some 100, iat := some 0,
                       purpose := some "caliguland-session" } "HS256" "k9"))).1 =
      .valid "admin" :=
  C9_logout_stateless defaultConfig (.ok "k9") none 20
    (.signed { sub := some "admin", exp := some 100, iat := some 0,
               purpose := some "caliguland-session" } "HS256" "k9") "admin"
    (by decide)

end Caliguland
